import Mathlib

/-!
Verification of the codebase-documenter job pipeline and resource-lifecycle
engine, as a shallow embedding of the repository's Python sources.

Embedding conventions:
- Python strings are Lean `String`s; character-level operations are modelled
  over `List Char` (Python slicing and regex classes operate on characters,
  and all inputs of interest here are ASCII).
- Fallible Python code (operations that may raise) is modelled with
  `Except String`; code that catches every exception is modelled as a total
  function.
- File-system and network effects are modelled through explicit oracles
  (`Env`, `Script`) describing the outcome of each external operation of one
  run; file trees and object stores are association lists from path/key to
  content.
-/

set_option maxRecDepth 20000

/-! ## Character and string helpers shared by the embeddings -/

def pySlice (s : String) (n : Nat) : String :=
  String.mk (s.toList.take n)

def replaceChar (s : String) (a b : Char) : String :=
  String.mk (s.toList.map (fun c => if c = a then b else c))

def toLowerStr (s : String) : String :=
  String.mk (s.toList.map Char.toLower)

/-- Everything after the last slash, as in Python `os.path.basename`. -/
def basenameCh (cs : List Char) : List Char :=
  (cs.reverse.takeWhile (fun c => !(c = '/'))).reverse

def basename (p : String) : String :=
  String.mk (basenameCh p.toList)

def stripTrailingSlashes (cs : List Char) : List Char :=
  (cs.reverse.dropWhile (fun c => c = '/')).reverse

/-- Python `os.path.dirname` (posix): the part up to the last slash, with
trailing slashes stripped unless the head is all slashes. -/
def dirnameCh (cs : List Char) : List Char :=
  let head := (cs.reverse.dropWhile (fun c => !(c = '/'))).reverse
  if head = [] then []
  else if head.all (fun c => c = '/') then head
  else stripTrailingSlashes head

def dirname (p : String) : String :=
  String.mk (dirnameCh p.toList)

/-- Python `os.path.join` for two posix path segments. -/
def posixJoin (a b : String) : String :=
  if b.toList.head? = some '/' then b
  else if a = "" || a.toList.getLast? = some '/' then a ++ b
  else a ++ "/" ++ b

/-- Substring test, as Python `needle in haystack` for nonempty needles. -/
def containsSub (n : List Char) : List Char → Bool
  | [] => n.isPrefixOf []
  | c :: t => n.isPrefixOf (c :: t) || containsSub n t

/-! ## GitService.cleanup_repository (src/services/git_service.py)

`shutil.rmtree` may itself fail; `cleanup_repository` checks existence first
and swallows any exception from the removal (printing a warning only).  The
boolean argument `rmtreeFails` is the oracle for the disk-level outcome of
the one `rmtree` call; the boolean state is whether the directory exists. -/

def rmtree (fails : Bool) : Except String Unit :=
  if fails then Except.error ("rmtree failed") else Except.ok ()

def cleanup_repository (rmtreeFails pathExists : Bool) : Except String Bool :=
  if pathExists then
    match rmtree rmtreeFails with
    | Except.ok _ => Except.ok false
    | Except.error _ => Except.ok true
  else Except.ok pathExists

/-! ## Storage backends (src/services/local_storage.py, src/services/s3_service.py)

A store is an association list from full key (`{job_id}/{relative_path}`,
which for the local backend is the path below the fixed base directory) to
file content.  A bundle is an association list from relative path to content. -/

def nsKey (jid rel : String) : String := jid ++ "/" ++ rel

def underNS (jid key : String) : Bool :=
  (jid ++ "/").toList.isPrefixOf key.toList

/-- The artifacts visible under a job id's namespace. -/
def namespaceFiles (store : List (String × String)) (jid : String) :
    List (String × String) :=
  store.filter (fun kv => underNS jid kv.1)

/-- `LocalStorageService.upload_documentation`: remove the job directory if
it exists (`shutil.rmtree`), then `shutil.copytree` the bundle under it. -/
def local_upload_documentation (store : List (String × String)) (jid : String)
    (bundle : List (String × String)) : List (String × String) :=
  (store.filter (fun kv => !(underNS jid kv.1)))
    ++ bundle.map (fun rc => (nsKey jid rc.1, rc.2))

/-- One S3 `upload_file`/`put_object`: same-key objects are overwritten,
other keys are untouched. -/
def putObject (store : List (String × String)) (k v : String) :
    List (String × String) :=
  if store.any (fun kv => kv.1 = k) then
    store.map (fun kv => if kv.1 = k then (k, v) else kv)
  else store ++ [(k, v)]

/-- `S3Service.upload_documentation`: walk the bundle and upload each file
under key `{job_id}/{relative_path}`.  No prior object is deleted. -/
def s3_upload_documentation (store : List (String × String)) (jid : String)
    (bundle : List (String × String)) : List (String × String) :=
  bundle.foldl (fun st rc => putObject st (nsKey jid rc.1) rc.2) store

def lookupKey (store : List (String × String)) (k : String) : Option String :=
  (store.find? (fun kv => kv.1 = k)).map (fun kv => kv.2)

/-! ## Bundle-materialization name escaping (src/backend/tasks.py lines 82-85) -/

/-- `file_path.replace('/', '_').replace('.', '_') + '.md'`. -/
def safe_name (p : String) : String :=
  replaceChar (replaceChar p '/' '_') '.' '_' ++ ".md"

/-- The per-character effect of the two `replace` calls. -/
def escC (c : Char) : Char :=
  if c = '/' then '_' else if c = '.' then '_' else c

/-! ### Helper lemmas about lists used by the storage and escaping results -/

theorem isPrefixOf_self_append (l t : List Char) :
    l.isPrefixOf (l ++ t) = true := by
  induction l with
  | nil => simp [List.isPrefixOf]
  | cons a l ih => simp [List.isPrefixOf, ih]

theorem filter_of_filter_not (p : α → Bool) (l : List α) :
    (l.filter (fun a => !(p a))).filter p = [] := by
  induction l with
  | nil => rfl
  | cons a l ih =>
    by_cases h : p a = true
    · simp [List.filter, h, ih]
    · simp only [Bool.not_eq_true] at h
      simp [List.filter, h, ih]

theorem filter_of_all (p : α → Bool) (l : List α) (h : ∀ a ∈ l, p a = true) :
    l.filter p = l := by
  induction l with
  | nil => rfl
  | cons a l ih =>
    simp only [List.filter, h a (by simp)]
    rw [ih (fun b hb => h b (by simp [hb]))]

theorem underNS_nsKey (jid rel : String) : underNS jid (nsKey jid rel) = true := by
  have h : (nsKey jid rel).toList = (jid ++ "/").toList ++ rel.toList := by
    simp [nsKey, String.toList]
  rw [underNS, h]
  exact isPrefixOf_self_append _ _

theorem mem_putObject_of_ne (st : List (String × String)) (k v : String)
    (kv : String × String) (hm : kv ∈ st) (hne : kv.1 ≠ k) :
    kv ∈ putObject st k v := by
  unfold putObject
  by_cases h : st.any (fun kv => kv.1 = k) = true
  · simp only [h, if_pos]
    refine List.mem_map.mpr ⟨kv, hm, ?_⟩
    simp [hne]
  · simp only [h]
    simp [List.mem_append, hm]

theorem mem_s3_upload_of_stale (jid : String) (b : List (String × String)) :
    ∀ (st : List (String × String)) (kv : String × String), kv ∈ st →
    (∀ rc ∈ b, nsKey jid rc.1 ≠ kv.1) →
    kv ∈ s3_upload_documentation st jid b := by
  induction b with
  | nil => intro st kv hm _; exact hm
  | cons rc b ih =>
    intro st kv hm hk
    have h1 : kv ∈ putObject st (nsKey jid rc.1) rc.2 :=
      mem_putObject_of_ne st _ _ kv hm (fun h => hk rc (by simp) h.symm)
    exact ih _ kv h1 (fun rc2 h2 => hk rc2 (by simp [h2]))

/-! ## Path resolution and the bundle-serving endpoint (src/backend/app.py)

`serve_documentation` joins the requested relative path onto the job's
namespace root `/tmp/codebase_docs/{job_id}`, resolves both with
`os.path.abspath`, and refuses unless the resolved root is a *string* prefix
of the resolved full path.  Path resolution is modelled on character lists:
split on slashes, then fold components, with `.` and empty components
skipped and `..` popping one component (a no-op at the root, as for posix
`abspath` of an absolute path).  The file system is the list of files that
exist, stored under their resolved absolute paths. -/

def splitSlashCh : List Char → List (List Char)
  | [] => [[]]
  | '/' :: rest => [] :: splitSlashCh rest
  | c :: rest =>
    match splitSlashCh rest with
    | [] => [[c]]
    | g :: gs => (c :: g) :: gs

def joinSlashCh : List (List Char) → List Char
  | [] => []
  | [g] => g
  | g :: gs => g ++ '/' :: joinSlashCh gs

def normPartsCh : List (List Char) → List (List Char) → List (List Char)
  | acc, [] => acc.reverse
  | acc, c :: rest =>
    if c = [] || c = ['.'] then normPartsCh acc rest
    else if c = ['.', '.'] then normPartsCh acc.tail rest
    else normPartsCh (c :: acc) rest

/-- `os.path.abspath` with the worker's working directory modelled as `/`
(every path the endpoint resolves is already absolute). -/
def abspathStr (p : String) : String :=
  let q := if p.toList.head? = some '/' then p.toList else '/' :: p.toList
  String.mk ('/' :: joinSlashCh (normPartsCh [] (splitSlashCh q)))

/-- Python `full.startswith(pre)`. -/
def pyStartswith (full pre : String) : Bool :=
  pre.toList.isPrefixOf full.toList

inductive ServeResult where
  | denied
  | notFound
  | served (path : String)
deriving DecidableEq

def docsBase : String := "/tmp/codebase_docs"

/-- `LocalStorageService.get_documentation_path`. -/
def get_documentation_path (job_id : String) : String :=
  posixJoin docsBase job_id

/-- The serving endpoint `GET /api/docs/{job_id}/{file_path}` in local
storage mode: 403 on the string-prefix security check, 404 when the file
does not exist, otherwise the file at the resolved path is returned. -/
def serve_documentation (fsFiles : List String) (job_id filePath : String) :
    ServeResult :=
  let doc_path := get_documentation_path job_id
  let full_path := posixJoin doc_path filePath
  if pyStartswith (abspathStr full_path) (abspathStr doc_path) = false then
    ServeResult.denied
  else if fsFiles.contains (abspathStr full_path) = false then
    ServeResult.notFound
  else ServeResult.served (abspathStr full_path)

/-- A resolved path escapes a root when it is neither the root itself nor
below it (component-wise, i.e. extending the root across a slash). -/
def escapesRoot (root resolved : String) : Prop :=
  ¬ (resolved = root ∨ pyStartswith resolved (root ++ "/") = true)

instance (root resolved : String) : Decidable (escapesRoot root resolved) := by
  unfold escapesRoot; infer_instance

/-! ## The documentation pipeline (src/ai_agent/agent.py, src/services/file_analyzer.py)

The five LangGraph nodes are pure state transformers over `AgentState`,
executed in a fixed linear order.  External effects of one run are an `Env`
oracle: the outcome of the stage-1 repository walk (an external file-system
traversal), the blocking text-generation call (`llm`), the file table used
by `FileAnalyzer.get_file_content` and the `os.path.exists`/`open` checks of
stage 5, and the result of `json.load` on `package.json`.  The Python
`analysis` dict is either `{}` (the initial value, `none` here) or fully
populated by stage 1 (`some`); a key access on `{}` raises `KeyError`. -/

structure FileInfo where
  path : String
  full_path : String
  extension : String
  size : Nat
deriving DecidableEq

structure Analysis where
  total_files : Nat
  code_files : List FileInfo
  directories : List String
  code_file_count : Nat
  languages : List String
  frameworks : List String
  file_tree : String
deriving DecidableEq

structure FileData where
  size : Nat
  read : Except String String

structure Env where
  analyzeOutcome : Except String Analysis
  llm : String → Except String String
  files : String → Option FileData
  jsonDeps : String → Except String (Option (List String))

structure AgentState where
  repo_path : String
  repo_name : String
  analysis : Option Analysis
  main_readme : String
  folder_readmes : List (String × String)
  function_docs : List (String × String)
  setup_guide : String
  status : String
  error : String
deriving DecidableEq

/-- The initial state built by `DocumentationAgent.run`. -/
def initialState (rp rn : String) : AgentState :=
  { repo_path := rp, repo_name := rn, analysis := none, main_readme := "",
    folder_readmes := [], function_docs := [], setup_guide := "",
    status := "started", error := "" }

/-- `FileAnalyzer.get_file_content`: total; unreadable or oversized (over
1 MB) files yield a bracketed placeholder string instead of raising. -/
def get_file_content (env : Env) (path : String) : String :=
  match env.files path with
  | none => "[Error reading file: No such file or directory: " ++ path ++ "]"
  | some fd =>
    if 1000000 < fd.size then
      "[File too large: " ++ toString fd.size ++ " bytes]"
    else
      match fd.read with
      | Except.error e => "[Error reading file: " ++ e ++ "]"
      | Except.ok c => c

/-- `FileAnalyzer.group_files_by_directory`: group by `os.path.dirname`
(`'.'` for files at the root), keys in first-encounter order, values in
encounter order, as for a Python dict. -/
def addToGroup : List (String × List FileInfo) → String → FileInfo →
    List (String × List FileInfo)
  | [], d, f => [(d, [f])]
  | (k, v) :: rest, d, f =>
    if k = d then (k, v ++ [f]) :: rest else (k, v) :: addToGroup rest d f

def group_files_by_directory (files : List FileInfo) :
    List (String × List FileInfo) :=
  files.foldl (fun acc f =>
    addToGroup acc (if dirname f.path = "" then "." else dirname f.path) f) []

/-! Prompt rendering.  The prompt templates of src/ai_agent/prompts.py are
plain text fills; their exact wording feeds only the external text
generator, so they are rendered as field-separated concatenations that keep
every input the source interpolates. -/

def get_key_files (code_files : List FileInfo) : String :=
  String.intercalate ("\n")
    ((code_files.take 10).map (fun f => "- " ++ f.path ++ " (" ++ f.extension ++ ")"))

def mainReadmePrompt (rn : String) (a : Analysis) (keyFiles : String) : String :=
  rn ++ "|" ++ toString a.total_files ++ "|" ++ toString a.code_file_count
    ++ "|" ++ String.intercalate (", ") a.languages ++ "|" ++ a.file_tree
    ++ "|" ++ keyFiles

/-- Stage 1, `DocumentationAgent.analyze_repository`: on failure it records
the error and also sets `status` to `"failed"`. -/
def analyze_repository (env : Env) (s : AgentState) : AgentState :=
  match env.analyzeOutcome with
  | Except.ok a => { s with analysis := some a, status := "analyzed" }
  | Except.error e =>
    { s with error := "Analysis failed: " ++ e, status := "failed" }

/-- Stage 2, `DocumentationAgent.generate_main_readme`.  With the empty
analysis dict the first key access is `analysis['code_files']` inside
`_get_key_files`, so the caught `KeyError` stringifies as `'code_files'`. -/
def generate_main_readme (env : Env) (s : AgentState) : AgentState :=
  match s.analysis with
  | none => { s with error := "Main README generation failed: 'code_files'" }
  | some a =>
    match env.llm (mainReadmePrompt s.repo_name a (get_key_files a.code_files)) with
    | Except.ok resp =>
      { s with main_readme := resp, status := "main_readme_generated" }
    | Except.error e =>
      { s with error := "Main README generation failed: " ++ e }

/-- `DocumentationAgent._get_code_snippets`, split into the sampled
(path, truncated-content) pairs and their rendering. -/
def snippetPairs (env : Env) (files : List FileInfo) : List (String × String) :=
  files.filterMap (fun f =>
    let c := get_file_content env f.full_path
    if c.toList.head? = some '[' then none else some (f.path, pySlice c 500))

def code_snippets (env : Env) (files : List FileInfo) : String :=
  String.intercalate ("\n\n")
    ((snippetPairs env files).map
      (fun pr => "### " ++ pr.1 ++ "\n```\n" ++ pr.2 ++ "\n```"))

def infer_directory_purpose (directory : String) : String :=
  let dn := toLowerStr (basename directory)
  if dn = "src" then "Source code"
  else if dn = "lib" then "Library code"
  else if dn = "test" then "Test files"
  else if dn = "tests" then "Test files"
  else if dn = "docs" then "Documentation"
  else if dn = "config" then "Configuration files"
  else if dn = "utils" then "Utility functions"
  else if dn = "models" then "Data models"
  else if dn = "views" then "View components"
  else if dn = "controllers" then "Controller logic"
  else if dn = "services" then "Service layer"
  else if dn = "api" then "API endpoints"
  else "Application code"

def folderPrompt (d : String) (files : List FileInfo) (snips : String) : String :=
  d ++ "|" ++ infer_directory_purpose d ++ "|"
    ++ String.intercalate ("\n") (files.map (fun f => "- " ++ f.path))
    ++ "|" ++ snips

/-- The loop body of stage 3 over the first five directory groups: `'.'` is
skipped, three files are sampled per directory, and a text-generation error
aborts the loop (the partially built dict is discarded by the `except`). -/
def folderLoop (env : Env) : List (String × List FileInfo) →
    Except String (List (String × String))
  | [] => Except.ok []
  | (d, files) :: rest =>
    if d = "." then folderLoop env rest
    else
      match env.llm (folderPrompt d files (code_snippets env (files.take 3))) with
      | Except.error e => Except.error e
      | Except.ok resp =>
        match folderLoop env rest with
        | Except.error e => Except.error e
        | Except.ok tail => Except.ok ((d, resp) :: tail)

/-- Stage 3, `DocumentationAgent.generate_folder_readmes`. -/
def generate_folder_readmes (env : Env) (s : AgentState) : AgentState :=
  match s.analysis with
  | none => { s with error := "Folder README generation failed: 'code_files'" }
  | some a =>
    match folderLoop env ((group_files_by_directory a.code_files).take 5) with
    | Except.ok frs =>
      { s with folder_readmes := frs, status := "folder_readmes_generated" }
    | Except.error e =>
      { s with error := "Folder README generation failed: " ++ e }

/-- `DocumentationAgent._select_key_files` priority score, scaled by 1000 to
stay in `Nat`: an entry-point hint in the basename adds 10 (scaled 10000),
and the size bonus `min(size/1000, 5)` becomes `min size 5000`. -/
def scoreMilli (f : FileInfo) : Nat :=
  let b := (toLowerStr (basename f.path)).toList
  (if containsSub (("main").toList) b || containsSub (("index").toList) b
      || containsSub (("app").toList) b then 10000 else 0)
    + min f.size 5000

/-- Stable descending insertion, matching Python's stable
`sort(reverse=True)`: an element is placed before the first strictly smaller
score, after all earlier elements with an equal or larger one. -/
def insertDesc (x : Nat × FileInfo) : List (Nat × FileInfo) → List (Nat × FileInfo)
  | [] => [x]
  | y :: ys => if x.1 < y.1 then y :: insertDesc x ys else x :: y :: ys

def select_key_files (code_files : List FileInfo) : List FileInfo :=
  ((code_files.map (fun f => (scoreMilli f, f))).foldr insertDesc []).map
    (fun sf => sf.2)

def get_language_name (ext : String) : String :=
  if ext = ".py" then "python"
  else if ext = ".js" then "javascript"
  else if ext = ".ts" then "typescript"
  else if ext = ".java" then "java"
  else if ext = ".go" then "go"
  else if ext = ".rs" then "rust"
  else if ext = ".rb" then "ruby"
  else "text"

def functionPrompt (path lang content : String) : String :=
  path ++ "|" ++ lang ++ "|" ++ content

/-- The loop body of stage 4 over the three top-scored files: any file whose
(total, never-raising) content starts with `'['` is skipped; the content
window is capped at 5000 characters. -/
def funcLoop (env : Env) : List FileInfo → Except String (List (String × String))
  | [] => Except.ok []
  | f :: rest =>
    let content := get_file_content env f.full_path
    if content.toList.head? = some '[' then funcLoop env rest
    else
      match env.llm (functionPrompt f.path (get_language_name f.extension)
          (pySlice content 5000)) with
      | Except.error e => Except.error e
      | Except.ok resp =>
        match funcLoop env rest with
        | Except.error e => Except.error e
        | Except.ok tail => Except.ok ((f.path, resp) :: tail)

/-- Stage 4, `DocumentationAgent.generate_function_docs`. -/
def generate_function_docs (env : Env) (s : AgentState) : AgentState :=
  match s.analysis with
  | none => { s with error := "Function documentation failed: 'code_files'" }
  | some a =>
    match funcLoop env ((select_key_files a.code_files).take 3) with
    | Except.ok fds =>
      { s with function_docs := fds, status := "function_docs_generated" }
    | Except.error e =>
      { s with error := "Function documentation failed: " ++ e }

def configPatterns : List String :=
  ["package.json", "requirements.txt", "Cargo.toml", "go.mod", "pom.xml",
   "build.gradle", ".env.example", "docker-compose.yml", "Dockerfile",
   "tsconfig.json", "webpack.config.js"]

/-- `DocumentationAgent._detect_config_files`: existence checks only. -/
def detect_config_files (env : Env) (rp : String) : List String :=
  configPatterns.filter (fun p => (env.files (posixJoin rp p)).isSome)

/-- `DocumentationAgent._detect_package_managers`. -/
def detect_package_managers (env : Env) (rp : String) : List String :=
  let m :=
    (if (env.files (posixJoin rp ("package.json"))).isSome then ["npm/yarn"] else [])
    ++ (if (env.files (posixJoin rp ("requirements.txt"))).isSome then ["pip"] else [])
    ++ (if (env.files (posixJoin rp ("Cargo.toml"))).isSome then ["cargo"] else [])
    ++ (if (env.files (posixJoin rp ("go.mod"))).isSome then ["go modules"] else [])
  if m = [] then ["Unknown"] else m

def depsRender (deps : List String) : String :=
  if deps = [] then "No dependencies file found"
  else String.intercalate ("\n") deps

/-- `DocumentationAgent._extract_dependencies`: reads `requirements.txt` and
`json.load`s `package.json` when present; either read may raise (inside the
stage's `try`). -/
def extract_dependencies (env : Env) (rp : String) : Except String String :=
  let pyPart : Except String (List String) :=
    match env.files (posixJoin rp ("requirements.txt")) with
    | none => Except.ok []
    | some fd =>
      match fd.read with
      | Except.error e => Except.error e
      | Except.ok c =>
        Except.ok ["Python: " ++ String.intercalate (", ") ((c.splitOn ("\n")).take 5)]
  match pyPart with
  | Except.error e => Except.error e
  | Except.ok py =>
    match env.files (posixJoin rp ("package.json")) with
    | none => Except.ok (depsRender py)
    | some _ =>
      match env.jsonDeps (posixJoin rp ("package.json")) with
      | Except.error e => Except.error e
      | Except.ok none => Except.ok (depsRender py)
      | Except.ok (some ks) =>
        Except.ok (depsRender (py ++ ["Node: " ++ String.intercalate (", ") (ks.take 5)]))

def setupPrompt (a : Analysis) (managers : List String) (database : String)
    (cfg : List String) (deps : String) : String :=
  String.intercalate (", ") a.languages ++ "|"
    ++ String.intercalate (", ") managers ++ "|"
    ++ String.intercalate (", ") a.frameworks ++ "|" ++ database ++ "|"
    ++ String.intercalate ("\n") (cfg.map (fun c => "- " ++ c)) ++ "|" ++ deps

/-- Stage 5, `DocumentationAgent.generate_setup_guide`.  Config detection
and dependency extraction run before the prompt is built, so with the empty
analysis dict a dependency-read error wins over the `KeyError` on
`analysis['languages']`. -/
def generate_setup_guide (env : Env) (s : AgentState) : AgentState :=
  let cfg := detect_config_files env s.repo_path
  match extract_dependencies env s.repo_path with
  | Except.error e => { s with error := "Setup guide generation failed: " ++ e }
  | Except.ok deps =>
    match s.analysis with
    | none => { s with error := "Setup guide generation failed: 'languages'" }
    | some a =>
      match env.llm (setupPrompt a (detect_package_managers env s.repo_path)
          ("Not detected") cfg deps) with
      | Except.ok resp => { s with setup_guide := resp, status := "completed" }
      | Except.error e => { s with error := "Setup guide generation failed: " ++ e }

/-- `DocumentationAgent.run`: the compiled workflow executes the five nodes
in the fixed edge order with no branching. -/
def agent_run (env : Env) (rp rn : String) : AgentState :=
  generate_setup_guide env (generate_function_docs env
    (generate_folder_readmes env (generate_main_readme env
      (analyze_repository env (initialState rp rn)))))

/-! ## The orchestrator task (src/backend/tasks.py)

`analyze_and_document` is one `try/except Exception/finally` block.
`repo_path`/`docs_dir` start as `None`; the `finally` releases the working
copy through `GitService.cleanup_repository` (which swallows its own rmtree
failure) and removes the bundle directory with a bare `shutil.rmtree`
guarded only by an existence check.  `Script` is the oracle for one run:
the clone outcome (`GitService.clone_repository` either succeeds, rejects
the locator before creating anything, or fails the fetch after removing its
own partial directory), the pipeline's terminal error field, the storage
calls, and the disk-level outcome of the two cleanup removals. -/

inductive CloneOutcome where
  | ok
  | invalidUrl
  | gitFail
deriving DecidableEq

inductive TaskOutcome where
  | completed
  | failed (msg : String)
  | raised (msg : String)
deriving DecidableEq

structure Disk where
  repoExists : Bool
  docsExists : Bool
deriving DecidableEq

structure Script where
  clone : CloneOutcome
  agentError : String
  uploadFails : Bool
  metadataFails : Bool
  repoRmtreeFails : Bool
  docsRmtreeFails : Bool

/-- The whole task body: returns the terminal outcome (the `except` clause
converts every caught exception into a `failed` result dict) and the state
of the two ephemeral directories after the `finally` block. -/
def analyze_and_document (sc : Script) : TaskOutcome × Disk :=
  let d0 : Disk := { repoExists := false, docsExists := false }
  let body : Except String Unit × Bool × Bool × Disk :=
    match sc.clone with
    | CloneOutcome.invalidUrl =>
      (Except.error ("Invalid GitHub URL"), false, false, d0)
    | CloneOutcome.gitFail =>
      (Except.error ("Failed to clone repository"), false, false, d0)
    | CloneOutcome.ok =>
      let d1 : Disk := { d0 with repoExists := true }
      if sc.agentError = "" then
        let d2 : Disk := { d1 with docsExists := true }
        if sc.uploadFails then
          (Except.error ("Failed to store documentation"), true, true, d2)
        else if sc.metadataFails then
          (Except.error ("Failed to upload metadata"), true, true, d2)
        else (Except.ok (), true, true, d2)
      else (Except.error sc.agentError, true, false, d1)
  match body with
  | (res, repoSet, docsSet, d) =>
    let outcome : TaskOutcome :=
      match res with
      | Except.ok _ => TaskOutcome.completed
      | Except.error m => TaskOutcome.failed m
    let d3 : Disk :=
      if repoSet then
        match cleanup_repository sc.repoRmtreeFails d.repoExists with
        | Except.ok e => { d with repoExists := e }
        | Except.error _ => d
      else d
    if docsSet && d3.docsExists then
      if sc.docsRmtreeFails then (TaskOutcome.raised ("rmtree docs failed"), d3)
      else (outcome, { d3 with docsExists := false })
    else (outcome, d3)

/-- The orchestrator's inspection of the pipeline's terminal error field
(`if result.get('error'): raise` plus the `except` conversion). -/
def task_outcome_of (fin : AgentState) : TaskOutcome :=
  if fin.error = "" then TaskOutcome.completed else TaskOutcome.failed fin.error

/-! ## Claim C7: name escaping of selected-file narratives -/

/-- C7 counterexample: the escaping is not injective.  The two distinct
selected-file paths `a/b` and `a.b` map to the same artifact filename
`a_b.md` under `detailed_docs/`, so the escaping does not avoid path
collisions. -/
theorem safe_name_collision :
    safe_name ("a/b") = safe_name ("a.b") ∧ ("a/b" : String) ≠ "a.b" := by
  decide

theorem toList_mk_append (l : List Char) (b : String) :
    (String.mk l ++ b).toList = l ++ b.toList := rfl

/-- C7 (amended): the escaping replaces every slash and every dot with an
underscore and appends `.md`; on paths containing neither slashes nor dots
it is injective, but in general distinct paths may collide. -/
theorem safe_name_escape_spec :
    (∀ p : String, (safe_name p).toList = p.toList.map escC ++ (".md").toList) ∧
    (∀ p q : String, p.toList.all (fun c => !(c = '/' || c = '.')) = true →
      q.toList.all (fun c => !(c = '/' || c = '.')) = true →
      safe_name p = safe_name q → p = q) := by
  have hstep : ∀ p : String, (safe_name p).toList = p.toList.map escC ++ (".md").toList := by
    intro p
    show (p.toList.map (fun c => if c = '/' then '_' else c)).map
        (fun c => if c = '.' then '_' else c) ++ (".md").toList = _
    rw [List.map_map]
    refine congrArg (fun l => l ++ (".md").toList) (List.map_congr_left ?_)
    intro c _
    by_cases h1 : c = '/'
    · simp [h1, escC, Function.comp]
    · by_cases h2 : c = '.'
      · simp [h1, h2, escC, Function.comp]
      · simp [h1, h2, escC, Function.comp]
  refine ⟨hstep, ?_⟩
  intro p q hp hq heq
  have hid : ∀ r : String, r.toList.all (fun c => !(c = '/' || c = '.')) = true →
      r.toList.map escC = r.toList := by
    intro r hr
    have : ∀ c ∈ r.toList, escC c = c := by
      intro c hc
      have := List.all_eq_true.mp hr c hc
      simp only [Bool.not_eq_true', Bool.or_eq_false_iff, decide_eq_false_iff_not] at this
      simp [escC, this.1, this.2]
    calc r.toList.map escC = r.toList.map id := List.map_congr_left this
    _ = r.toList := List.map_id r.toList
  have hlists : (safe_name p).toList = (safe_name q).toList := by rw [heq]
  rw [hstep p, hstep q, hid p hp, hid q hq] at hlists
  have hdata : p.toList = q.toList := List.append_cancel_right hlists
  cases p; cases q
  exact congrArg String.mk hdata

/-- C7 amended witness: the escaping applied to concrete slash/dot-free
paths through the injectivity clause. -/
theorem safe_name_escape_spec_witness :
    ("ab" : String).toList.all (fun c => !(c = '/' || c = '.')) = true ∧
    (("ab" : String) = "ab") :=
  ⟨by decide, safe_name_escape_spec.2 ("ab") ("ab") (by decide) (by decide) rfl⟩

/-! ## Claim C8: release of the working copy -/

/-- C8: `cleanup_repository` never raises (every outcome is `ok`, the
`except` clause converting an rmtree failure into a logged warning), it
removes the directory when the removal succeeds, and on a path that never
existed or was already removed it is an idempotent no-op. -/
theorem cleanup_repository_never_raises :
    (∀ f e, ∃ e2, cleanup_repository f e = Except.ok e2) ∧
    cleanup_repository false true = Except.ok false ∧
    (∀ f, cleanup_repository f false = Except.ok false) := by
  refine ⟨?_, rfl, ?_⟩
  · intro f e
    cases e <;> cases f
    · exact ⟨false, rfl⟩
    · exact ⟨false, rfl⟩
    · exact ⟨false, rfl⟩
    · exact ⟨true, rfl⟩
  · intro f
    cases f <;> rfl

/-! ## Claim C6: overwrite-on-rerun semantics of the storage backends -/

/-- C6 counterexample: storing a second bundle under the same job id merges
with the first on the S3 backend.  After storing `{old.md}` and then
`{new.md}` under job id `j`, the namespace holds both objects, not exactly
the second bundle's files; the local backend, by contrast, replaces. -/
theorem s3_rerun_merges_stale_files :
    namespaceFiles
        (s3_upload_documentation
          (s3_upload_documentation [] ("j") [("old.md", "1")])
          ("j") [("new.md", "2")]) ("j")
      = [("j/old.md", "1"), ("j/new.md", "2")] ∧
    namespaceFiles
        (s3_upload_documentation
          (s3_upload_documentation [] ("j") [("old.md", "1")])
          ("j") [("new.md", "2")]) ("j")
      ≠ [("new.md", "2")].map (fun rc => (nsKey ("j") rc.1, rc.2)) ∧
    namespaceFiles
        (local_upload_documentation
          (local_upload_documentation [] ("j") [("old.md", "1")])
          ("j") [("new.md", "2")]) ("j")
      = [("new.md", "2")].map (fun rc => (nsKey ("j") rc.1, rc.2)) := by
  decide

theorem mem_putObject_self (k v : String) :
    ∀ st : List (String × String), (k, v) ∈ putObject st k v := by
  intro st
  unfold putObject
  by_cases h : st.any (fun kv => kv.1 = k) = true
  · simp only [h, if_pos]
    obtain ⟨kv, hm, hk⟩ := List.any_eq_true.mp h
    refine List.mem_map.mpr ⟨kv, hm, ?_⟩
    simp [of_decide_eq_true hk]
  · simp [h]

/-- C6 (amended): the local backend deterministically replaces — after a
store, the artifacts visible under the job id are exactly the new bundle's
files.  The S3 backend overwrites per key (a re-uploaded key holds the new
content) but deletes nothing, so keys of a prior bundle that are absent
from the new bundle survive: a rerun merges rather than replaces. -/
theorem storage_rerun_semantics :
    (∀ (store : List (String × String)) (jid : String) (b : List (String × String)),
      namespaceFiles (local_upload_documentation store jid b) jid
        = b.map (fun rc => (nsKey jid rc.1, rc.2))) ∧
    (∀ (st : List (String × String)) (k v : String), (k, v) ∈ putObject st k v) ∧
    (∀ (st : List (String × String)) (jid : String) (b : List (String × String))
      (kv : String × String), kv ∈ st → (∀ rc ∈ b, nsKey jid rc.1 ≠ kv.1) →
      kv ∈ s3_upload_documentation st jid b) := by
  refine ⟨?_, fun st k v => mem_putObject_self k v st,
    fun st jid b kv hm hk => mem_s3_upload_of_stale jid b st kv hm hk⟩
  intro store jid b
  unfold namespaceFiles local_upload_documentation
  rw [List.filter_append]
  have h1 : (store.filter (fun kv => !(underNS jid kv.1))).filter
      (fun kv => underNS jid kv.1) = [] :=
    filter_of_filter_not (fun kv => underNS jid kv.1) store
  rw [h1]
  have h2 : (b.map (fun rc => (nsKey jid rc.1, rc.2))).filter
      (fun kv => underNS jid kv.1) = b.map (fun rc => (nsKey jid rc.1, rc.2)) := by
    refine filter_of_all _ _ ?_
    intro a ha
    obtain ⟨rc, _, hrc⟩ := List.mem_map.mp ha
    rw [← hrc]
    exact underNS_nsKey jid rc.1
  rw [h2, List.nil_append]

/-- C6 amended witness: the stale-key survival clause at a concrete store. -/
theorem storage_rerun_semantics_witness :
    ("j/old.md", "1") ∈ s3_upload_documentation [("j/old.md", "1")] ("j")
      [("new.md", "2")] :=
  storage_rerun_semantics.2.2 [("j/old.md", "1")] ("j") [("new.md", "2")]
    ("j/old.md", "1") (by decide) (by decide)

/-! ## Claim C2: traversal denial in the bundle-serving endpoint -/

/-- C2 counterexample: the security check is a *string*-prefix test on the
resolved paths, so a relative path resolving into a sibling directory whose
name extends the job id passes it.  For job id `j`, the request
`../jx/README.md` resolves to `/tmp/codebase_docs/jx/README.md`, which
escapes the namespace root `/tmp/codebase_docs/j` yet is served. -/
theorem serve_traversal_string_prefix_escape :
    serve_documentation ["/tmp/codebase_docs/jx/README.md"] ("j") ("../jx/README.md")
      = ServeResult.served ("/tmp/codebase_docs/jx/README.md") ∧
    escapesRoot (abspathStr (get_documentation_path ("j")))
      (abspathStr (posixJoin (get_documentation_path ("j")) ("../jx/README.md"))) := by
  decide

/-- C2 (amended): the endpoint denies (without throwing — the 403 is its
refusal response) every request whose resolved path does not extend the
resolved namespace root as a string prefix; in particular the two
spec-listed probes `../../etc/passwd` and `/etc/passwd` are always refused
and never served.  Resolved escaping paths that do extend the root as a
string prefix (sibling directories named `{job_id}…`) are not denied. -/
theorem serve_denies_nonprefix_paths :
    (∀ (fs : List String) (jid fp : String),
      pyStartswith (abspathStr (posixJoin (get_documentation_path jid) fp))
          (abspathStr (get_documentation_path jid)) = false →
      serve_documentation fs jid fp = ServeResult.denied) ∧
    (∀ fs : List String,
      serve_documentation fs ("j") ("../../etc/passwd") = ServeResult.denied) ∧
    (∀ fs : List String,
      serve_documentation fs ("j") ("/etc/passwd") = ServeResult.denied) := by
  have hmain : ∀ (fs : List String) (jid fp : String),
      pyStartswith (abspathStr (posixJoin (get_documentation_path jid) fp))
          (abspathStr (get_documentation_path jid)) = false →
      serve_documentation fs jid fp = ServeResult.denied := by
    intro fs jid fp h
    unfold serve_documentation
    simp only [h]
    rfl
  exact ⟨hmain, fun fs => hmain fs ("j") ("../../etc/passwd") (by decide),
    fun fs => hmain fs ("j") ("/etc/passwd") (by decide)⟩

/-- C2 amended witness: the denial clause at a concrete request. -/
theorem serve_denies_nonprefix_paths_witness :
    serve_documentation ["/tmp/codebase_docs/j/README.md"] ("j") ("../../etc/passwd")
      = ServeResult.denied :=
  serve_denies_nonprefix_paths.1 ["/tmp/codebase_docs/j/README.md"] ("j")
    ("../../etc/passwd") (by decide)

/-! ## Claim C1: guaranteed cleanup of the two ephemeral directories -/

/-- C1: on every exit path of the task body — success, pipeline stage
error, acquisition failure (locator rejection or fetch failure), storage
failure — the `finally` block leaves neither the working-copy directory nor
the ephemeral bundle directory on disk, and the run returns a terminal
result rather than propagating an exception.  The two hypotheses say the
disk-level removals themselves succeed (an `rmtree` failure is an
environment fault the task merely logs or propagates). -/
theorem cleanup_invariant_all_paths (sc : Script)
    (h1 : sc.repoRmtreeFails = false) (h2 : sc.docsRmtreeFails = false) :
    (analyze_and_document sc).2.repoExists = false ∧
    (analyze_and_document sc).2.docsExists = false ∧
    ∀ m, (analyze_and_document sc).1 ≠ TaskOutcome.raised m := by
  obtain ⟨cl, ae, up, md, rf, df⟩ := sc
  simp only at h1 h2
  subst h1 h2
  cases cl
  · by_cases hae : ae = ""
    · cases up <;> cases md <;>
        simp [analyze_and_document, cleanup_repository, rmtree, hae]
    · simp [analyze_and_document, cleanup_repository, rmtree, hae]
  · simp [analyze_and_document, cleanup_repository, rmtree]
  · simp [analyze_and_document, cleanup_repository, rmtree]

/-- C1 witness: the successful run at a concrete script. -/
theorem cleanup_invariant_all_paths_witness :
    (analyze_and_document
        ⟨CloneOutcome.ok, "", false, false, false, false⟩).2.repoExists = false ∧
    (analyze_and_document
        ⟨CloneOutcome.ok, "", false, false, false, false⟩).2.docsExists = false ∧
    ∀ m, (analyze_and_document
        ⟨CloneOutcome.ok, "", false, false, false, false⟩).1 ≠ TaskOutcome.raised m :=
  cleanup_invariant_all_paths ⟨CloneOutcome.ok, "", false, false, false, false⟩ rfl rfl

/-! ## Claim C3: per-stage error capture and non-halting -/

/-- A run environment in which stage 1's repository walk fails. -/
def envFailC3 : Env :=
  { analyzeOutcome := Except.error ("boom"), llm := fun _ => Except.error ("x"),
    files := fun _ => none, jsonDeps := fun _ => Except.ok none }

/-- C3 counterexample: stage 1 does not return the state "otherwise as
received" on failure — besides recording the error it overwrites `status`
with `"failed"` (no other stage touches `status` on its failure path).  The
failing stage-1 result differs from the received state with only the error
field updated. -/
theorem stage1_failure_mutates_status :
    analyze_repository envFailC3 (initialState ("/r") ("n"))
      ≠ { initialState ("/r") ("n") with
          error := (analyze_repository envFailC3 (initialState ("/r") ("n"))).error } ∧
    (analyze_repository envFailC3 (initialState ("/r") ("n"))).status = "failed" ∧
    (initialState ("/r") ("n")).status = "started" ∧
    (analyze_repository envFailC3 (initialState ("/r") ("n"))).analysis
      = (initialState ("/r") ("n")).analysis := by
  decide

/-- C3 (amended): every stage catches its internal failures and returns
either a success shape — its own accumulator filled and `status` advanced,
everything else as received — or a failure shape: the error message
recorded and, for stages 2-5, everything else exactly as received; stage 1
additionally sets `status := "failed"` on its failure path.  The driver is
the unconditional composition of the five stages, so a stage failure never
prevents the remaining stages from executing. -/
theorem stages_catch_record_and_continue :
    (∀ env s, (∃ a, analyze_repository env s
          = { s with analysis := some a, status := "analyzed" }) ∨
        (∃ m, analyze_repository env s
          = { s with error := m, status := "failed" })) ∧
    (∀ env s, (∃ out, generate_main_readme env s
          = { s with main_readme := out, status := "main_readme_generated" }) ∨
        (∃ m, generate_main_readme env s = { s with error := m })) ∧
    (∀ env s, (∃ frs, generate_folder_readmes env s
          = { s with folder_readmes := frs, status := "folder_readmes_generated" }) ∨
        (∃ m, generate_folder_readmes env s = { s with error := m })) ∧
    (∀ env s, (∃ fds, generate_function_docs env s
          = { s with function_docs := fds, status := "function_docs_generated" }) ∨
        (∃ m, generate_function_docs env s = { s with error := m })) ∧
    (∀ env s, (∃ g, generate_setup_guide env s
          = { s with setup_guide := g, status := "completed" }) ∨
        (∃ m, generate_setup_guide env s = { s with error := m })) ∧
    (∀ env rp rn, agent_run env rp rn
      = generate_setup_guide env (generate_function_docs env
          (generate_folder_readmes env (generate_main_readme env
            (analyze_repository env (initialState rp rn)))))) := by
  refine ⟨?_, ?_, ?_, ?_, ?_, fun env rp rn => rfl⟩
  · intro env s
    rcases h : env.analyzeOutcome with e | a
    · exact Or.inr ⟨"Analysis failed: " ++ e, by simp [analyze_repository, h]⟩
    · exact Or.inl ⟨a, by simp [analyze_repository, h]⟩
  · intro env s
    rcases ha : s.analysis with _ | a
    · exact Or.inr ⟨"Main README generation failed: 'code_files'", by simp [generate_main_readme, ha]⟩
    · rcases hl : env.llm (mainReadmePrompt s.repo_name a (get_key_files a.code_files))
        with e | out
      · exact Or.inr ⟨"Main README generation failed: " ++ e, by simp [generate_main_readme, ha, hl]⟩
      · exact Or.inl ⟨out, by simp [generate_main_readme, ha, hl]⟩
  · intro env s
    rcases ha : s.analysis with _ | a
    · exact Or.inr ⟨"Folder README generation failed: 'code_files'", by simp [generate_folder_readmes, ha]⟩
    · rcases hf : folderLoop env ((group_files_by_directory a.code_files).take 5)
        with e | frs
      · exact Or.inr ⟨"Folder README generation failed: " ++ e, by simp [generate_folder_readmes, ha, hf]⟩
      · exact Or.inl ⟨frs, by simp [generate_folder_readmes, ha, hf]⟩
  · intro env s
    rcases ha : s.analysis with _ | a
    · exact Or.inr ⟨"Function documentation failed: 'code_files'", by simp [generate_function_docs, ha]⟩
    · rcases hf : funcLoop env ((select_key_files a.code_files).take 3) with e | fds
      · exact Or.inr ⟨"Function documentation failed: " ++ e, by simp [generate_function_docs, ha, hf]⟩
      · exact Or.inl ⟨fds, by simp [generate_function_docs, ha, hf]⟩
  · intro env s
    rcases hd : extract_dependencies env s.repo_path with e | deps
    · exact Or.inr ⟨"Setup guide generation failed: " ++ e, by simp [generate_setup_guide, hd]⟩
    · rcases ha : s.analysis with _ | a
      · exact Or.inr ⟨"Setup guide generation failed: 'languages'", by simp [generate_setup_guide, hd, ha]⟩
      · rcases hl : env.llm (setupPrompt a (detect_package_managers env s.repo_path)
            ("Not detected") (detect_config_files env s.repo_path) deps) with e | g
        · exact Or.inr ⟨"Setup guide generation failed: " ++ e, by simp [generate_setup_guide, hd, ha, hl]⟩
        · exact Or.inl ⟨g, by simp [generate_setup_guide, hd, ha, hl]⟩

/-! ## Claim C4: behaviour of a run whose Analyze stage fails -/

/-- A run environment whose stage-1 walk fails and whose repository contains
no dependency manifest files. -/
def envC4 : Env :=
  { analyzeOutcome := Except.error ("boom"), llm := fun _ => Except.ok ("doc"),
    files := fun _ => none, jsonDeps := fun _ => Except.ok none }

/-- C4 counterexample: when stage 1 fails, the analysis dict stays empty, so
every later stage raises `KeyError` on its first access and fails too:
stages 2-5 produce *empty* output, and the error surfaced to the
orchestrator is stage 5's (`'languages'`), which overwrote stage 1's
`Analysis failed: boom` — the job is FAILED, but with the last stage's
error, not stage 1's, and with no degraded output. -/
theorem analyze_failure_empty_output_last_error :
    (analyze_repository envC4 (initialState ("/r") ("n"))).error
      = "Analysis failed: boom" ∧
    (agent_run envC4 ("/r") ("n")).error
      = "Setup guide generation failed: 'languages'" ∧
    (agent_run envC4 ("/r") ("n")).main_readme = "" ∧
    (agent_run envC4 ("/r") ("n")).folder_readmes = [] ∧
    (agent_run envC4 ("/r") ("n")).function_docs = [] ∧
    (agent_run envC4 ("/r") ("n")).setup_guide = "" ∧
    task_outcome_of (agent_run envC4 ("/r") ("n"))
      = TaskOutcome.failed ("Setup guide generation failed: 'languages'") ∧
    ¬ (agent_run envC4 ("/r") ("n")).error = "Analysis failed: boom" := by
  decide

/-- C4 (amended): in every run whose Analyze stage fails (and whose working
copy holds no `requirements.txt`/`package.json`, so stage 5's dependency
reads cannot fail first), stages 2-5 all fail on the empty analysis dict
and leave their accumulators empty, and the job is marked FAILED carrying
stage 5's `KeyError` message `Setup guide generation failed: 'languages'`
in place of stage 1's recorded error. -/
theorem analyze_failure_cascade (env : Env) (rp rn e : String)
    (h1 : env.analyzeOutcome = Except.error e)
    (h2 : env.files (posixJoin rp ("requirements.txt")) = none)
    (h3 : env.files (posixJoin rp ("package.json")) = none) :
    (agent_run env rp rn).main_readme = "" ∧
    (agent_run env rp rn).folder_readmes = [] ∧
    (agent_run env rp rn).function_docs = [] ∧
    (agent_run env rp rn).setup_guide = "" ∧
    (agent_run env rp rn).error = "Setup guide generation failed: 'languages'" ∧
    task_outcome_of (agent_run env rp rn)
      = TaskOutcome.failed ("Setup guide generation failed: 'languages'") := by
  have hne : ("Setup guide generation failed: 'languages'" : String) ≠ "" := by decide
  simp [agent_run, analyze_repository, h1, generate_main_readme,
    generate_folder_readmes, generate_function_docs, generate_setup_guide,
    extract_dependencies, h2, h3, initialState, task_outcome_of, hne]

/-- C4 amended witness: the cascade at the concrete failing environment. -/
theorem analyze_failure_cascade_witness :
    (agent_run envC4 ("/w") ("x")).main_readme = "" ∧
    (agent_run envC4 ("/w") ("x")).folder_readmes = [] ∧
    (agent_run envC4 ("/w") ("x")).function_docs = [] ∧
    (agent_run envC4 ("/w") ("x")).setup_guide = "" ∧
    (agent_run envC4 ("/w") ("x")).error = "Setup guide generation failed: 'languages'" ∧
    task_outcome_of (agent_run envC4 ("/w") ("x"))
      = TaskOutcome.failed ("Setup guide generation failed: 'languages'") :=
  analyze_failure_cascade envC4 ("/w") ("x") ("boom") rfl rfl rfl

/-! ## Claim C9: bounds of the DirectoryNarratives stage -/

def fileC9 : FileInfo :=
  { path := "a/b/c.py", full_path := "/r/a/b/c.py", extension := ".py", size := 10 }

def anC9 : Analysis :=
  { total_files := 1, code_files := [fileC9], directories := ["a", "a/b"],
    code_file_count := 1, languages := ["Python"], frameworks := [],
    file_tree := "t" }

def envC9 : Env :=
  { analyzeOutcome := Except.ok anC9, llm := fun _ => Except.ok ("doc"),
    files := fun _ => some { size := 10, read := Except.ok ("code") },
    jsonDeps := fun _ => Except.ok none }

def sC9 : AgentState :=
  { initialState ("/r") ("n") with analysis := some anC9, status := "analyzed" }

/-- C9 counterexample: the stage groups files by their *immediate parent*
directory, not by top-level directory.  A repository whose only code file is
`a/b/c.py` gets a narrative keyed by the nested directory `a/b`, which is
not a top-level directory (its name contains a slash). -/
theorem folder_readmes_nested_directory :
    (generate_folder_readmes envC9 sC9).folder_readmes = [("a/b", "doc")] ∧
    ("a/b" : String).toList.contains '/' = true := by
  decide

theorem folderLoop_length_le (env : Env) :
    ∀ (l : List (String × List FileInfo)) (res : List (String × String)),
    folderLoop env l = Except.ok res → res.length ≤ l.length := by
  intro l
  induction l with
  | nil =>
    intro res h
    simp only [folderLoop] at h
    cases h
    simp
  | cons g rest ih =>
    intro res h
    obtain ⟨d, files⟩ := g
    by_cases hd : d = "."
    · simp only [folderLoop, hd, if_pos] at h
      exact Nat.le_succ_of_le (ih res h)
    · simp only [folderLoop, hd, if_neg, not_false_iff] at h
      rcases hl : env.llm (folderPrompt d files (code_snippets env (files.take 3)))
          with e | resp
      · rw [hl] at h; cases h
      · rw [hl] at h
        rcases hrest : folderLoop env rest with e | tail
        · rw [hrest] at h; cases h
        · rw [hrest] at h
          cases h
          simpa using Nat.succ_le_succ (ih tail hrest)

/-- C9 (amended): the DirectoryNarratives stage produces one narrative per
grouped directory — files grouped by their immediate parent directory path
at any depth, with the root group `.` skipped — for at most the first 5
groups; each narrative samples at most 3 files of its group, and each
sampled snippet keeps at most 500 characters of the file's content. -/
theorem folder_readmes_caps :
    (∀ env s, (generate_folder_readmes env s).folder_readmes = s.folder_readmes ∨
      (generate_folder_readmes env s).folder_readmes.length ≤ 5) ∧
    (∀ (env : Env) (files : List FileInfo),
      (snippetPairs env (files.take 3)).length ≤ 3) ∧
    (∀ (env : Env) (files : List FileInfo) (pr : String × String),
      pr ∈ snippetPairs env (files.take 3) → pr.2.length ≤ 500) := by
  refine ⟨?_, ?_, ?_⟩
  · intro env s
    rcases ha : s.analysis with _ | a
    · exact Or.inl (by simp [generate_folder_readmes, ha])
    · rcases hf : folderLoop env ((group_files_by_directory a.code_files).take 5)
          with e | frs
      · exact Or.inl (by simp [generate_folder_readmes, ha, hf])
      · refine Or.inr ?_
        have h1 := folderLoop_length_le env _ frs hf
        have h2 : ((group_files_by_directory a.code_files).take 5).length ≤ 5 :=
          List.length_take_le 5 _
      -- combine
        simp [generate_folder_readmes, ha, hf]
        exact le_trans h1 h2
  · intro env files
    calc (snippetPairs env (files.take 3)).length
        ≤ (files.take 3).length := List.length_filterMap_le _ _
    _ ≤ 3 := List.length_take_le 3 files
  · intro env files pr hm
    obtain ⟨f, _, hf⟩ := List.mem_filterMap.mp hm
    dsimp only at hf
    split at hf
    · cases hf
    · have h2 := Option.some.inj hf
      rw [← h2]
      show ((get_file_content env f.full_path).toList.take 500).length ≤ 500
      exact List.length_take_le 500 _

/-- C9 amended witness: the snippet bounds at the concrete environment. -/
theorem folder_readmes_caps_witness :
    ("a/b/c.py", pySlice ("code") 500).2.length ≤ 500 :=
  folder_readmes_caps.2.2 envC9 [fileC9] ("a/b/c.py", pySlice ("code") 500)
    (by decide)

/-! ## Claim C10: total file reading and the bracket-skip in FileNarratives -/

def fMain : FileInfo :=
  { path := "main.py", full_path := "/r/main.py", extension := ".py", size := 9 }

def fArr : FileInfo :=
  { path := "arr.json", full_path := "/r/arr.json", extension := ".json", size := 6 }

def anC10 : Analysis :=
  { total_files := 2, code_files := [fMain, fArr], directories := [],
    code_file_count := 2, languages := ["Python"], frameworks := [],
    file_tree := "t" }

def envC10 : Env :=
  { analyzeOutcome := Except.ok anC10, llm := fun _ => Except.ok ("doc"),
    files := fun p =>
      if p = "/r/main.py" then some { size := 9, read := Except.ok ("print(1)") }
      else if p = "/r/arr.json" then some { size := 6, read := Except.ok ("[1, 2]") }
      else none,
    jsonDeps := fun _ => Except.ok none }

def sC10 : AgentState :=
  { initialState ("/r") ("n") with analysis := some anC10, status := "analyzed" }

/-- An environment holding only one oversized file, for the witness. -/
def envBig : Env :=
  { analyzeOutcome := Except.error ("x"), llm := fun _ => Except.ok (""),
    files := fun _ => some { size := 2000000, read := Except.ok ("") },
    jsonDeps := fun _ => Except.ok none }

/-- C10: `get_file_content` is total — a missing or unreadable file yields a
bracketed placeholder, an oversized (over 1 MB) file yields the bracketed
too-large placeholder, a readable file yields its content — and the
FileNarratives loop documents only candidates whose content does not start
with `'['`; consequently the readable file `arr.json` with genuine content
`[1, 2]` is silently excluded from the detailed documentation. -/
theorem file_content_total_and_bracket_skip :
    (∀ (env : Env) (p : String), env.files p = none →
      (get_file_content env p).toList.head? = some '[') ∧
    (∀ (env : Env) (p : String) (fd : FileData), env.files p = some fd →
      1000000 < fd.size →
      get_file_content env p = "[File too large: " ++ toString fd.size ++ " bytes]") ∧
    (∀ (env : Env) (p : String) (fd : FileData) (e : String), env.files p = some fd →
      fd.read = Except.error e → ¬(1000000 < fd.size) →
      (get_file_content env p).toList.head? = some '[') ∧
    (∀ (env : Env) (p : String) (fd : FileData) (c : String), env.files p = some fd →
      fd.read = Except.ok c → ¬(1000000 < fd.size) →
      get_file_content env p = c) ∧
    (∀ (env : Env) (l : List FileInfo) (res : List (String × String)),
      funcLoop env l = Except.ok res → ∀ pr ∈ res,
      ∃ f, f ∈ l ∧ f.path = pr.1 ∧
        ¬(get_file_content env f.full_path).toList.head? = some '[') ∧
    ((generate_function_docs envC10 sC10).function_docs = [("main.py", "doc")] ∧
      get_file_content envC10 ("/r/arr.json") = "[1, 2]" ∧
      ¬ (("arr.json" : String) ∈
          ((generate_function_docs envC10 sC10).function_docs).map Prod.fst)) := by
  refine ⟨?_, ?_, ?_, ?_, ?_, by decide⟩
  · intro env p h
    simp only [get_file_content, h]
    rfl
  · intro env p fd h hs
    simp [get_file_content, h, hs]
  · intro env p fd e h hr hs
    simp only [get_file_content, h, hr, if_neg hs]
    rfl
  · intro env p fd c h hr hs
    simp [get_file_content, h, hr, hs]
  · intro env l
    induction l with
    | nil =>
      intro res h pr hpr
      simp only [funcLoop] at h
      cases h
      cases hpr
    | cons f rest ih =>
      intro res h pr hpr
      by_cases hb : (get_file_content env f.full_path).toList.head? = some '['
      · simp only [funcLoop, hb, if_pos] at h
        obtain ⟨g, hg1, hg2⟩ := ih res h pr hpr
        exact ⟨g, List.mem_cons_of_mem f hg1, hg2⟩
      · simp only [funcLoop, hb, if_neg, not_false_iff] at h
        rcases hl : env.llm (functionPrompt f.path (get_language_name f.extension)
            (pySlice (get_file_content env f.full_path) 5000)) with e | resp
        · rw [hl] at h; cases h
        · rw [hl] at h
          rcases hrest : funcLoop env rest with e | tail
          · rw [hrest] at h; cases h
          · rw [hrest] at h
            cases h
            rcases List.mem_cons.mp hpr with heq | hmem
            · exact ⟨f, List.mem_cons_self f rest, by rw [heq], hb⟩
            · obtain ⟨g, hg1, hg2⟩ := ih tail hrest pr hmem
              exact ⟨g, List.mem_cons_of_mem f hg1, hg2⟩

/-- C10 witness: the oversized-placeholder clause at a concrete
environment and file. -/
theorem file_content_total_and_bracket_skip_witness :
    get_file_content envBig ("p")
      = "[File too large: " ++ toString (2000000 : Nat) ++ " bytes]" :=
  file_content_total_and_bracket_skip.2.1 envBig ("p")
    { size := 2000000, read := Except.ok ("") } rfl (by decide)

/-! ## Claim C5: locator validation (src/services/git_service.py, src/backend/app.py)

`validate_github_url` strips the input and matches it against the two
anchored regexes

  `^https://github\.com/[\w-]+/[\w.-]+/?$`  and
  `^git@github\.com:[\w-]+/[\w.-]+\.git$`.

The embedding scans with maximal munch, which on these patterns agrees with
regex backtracking semantics: `/` belongs to neither character class, so the
owner segment is forced to be exactly the characters before the first
unmatched character, and `.git` is a fixed-length suffix whose characters
lie inside `[\w.-]`, so `[\w.-]+\.git$` holds exactly when the tail minus
its last four characters is a nonempty `[\w.-]` word.  `\w` is modelled as
ASCII alphanumerics plus underscore. -/

def wordCh (c : Char) : Bool := c.isAlphanum || c = '_'

def wordDash (c : Char) : Bool := wordCh c || c = '-'

def wordDotDash (c : Char) : Bool := wordCh c || c = '.' || c = '-'

def dropHead : List Char → List Char → Option (List Char)
  | [], cs => some cs
  | _ :: _, [] => none
  | p :: ps, c :: cs => if c = p then dropHead ps cs else none

def httpsHead : List Char := ("https://github.com/").toList

def sshHead : List Char := ("git@github.com:").toList

def gitSuffix : List Char := (".git").toList

/-- The part of the HTTPS pattern after its literal head:
`[\w-]+/[\w.-]+/?$`. -/
def matchTailHttps (rest : List Char) : Bool :=
  match rest.dropWhile wordDash with
  | c :: r2 =>
    decide (c = '/') && (!(rest.takeWhile wordDash).isEmpty)
      && (!(r2.takeWhile wordDotDash).isEmpty)
      && (decide (r2.dropWhile wordDotDash = [])
            || decide (r2.dropWhile wordDotDash = ['/']))
  | [] => false

/-- The part of the SSH pattern after its literal head:
`[\w-]+/[\w.-]+\.git$`. -/
def matchTailSsh (rest : List Char) : Bool :=
  match rest.dropWhile wordDash with
  | c :: r2 =>
    decide (c = '/') && (!(rest.takeWhile wordDash).isEmpty)
      && decide (5 ≤ r2.length) && decide (r2.drop (r2.length - 4) = gitSuffix)
      && (r2.take (r2.length - 4)).all wordDotDash
  | [] => false

def matchHttpsCs (cs : List Char) : Bool :=
  match dropHead httpsHead cs with
  | some rest => matchTailHttps rest
  | none => false

def matchSshCs (cs : List Char) : Bool :=
  match dropHead sshHead cs with
  | some rest => matchTailSsh rest
  | none => false

/-- Python `str.strip()` whitespace (ASCII fragment). -/
def pyWs (c : Char) : Bool :=
  c = ' ' || c = '\t' || c = '\n' || c = '\r' || c = '\x0b' || c = '\x0c'

def pyStrip (s : String) : List Char :=
  ((s.toList.dropWhile pyWs).reverse.dropWhile pyWs).reverse

/-- `GitService.validate_github_url`. -/
def validate_github_url (url : String) : Bool :=
  matchHttpsCs (pyStrip url) || matchSshCs (pyStrip url)

/-- The HTTPS browse-URL shape, stated declaratively: literal head, a
nonempty `[\w-]` owner, a slash, a nonempty `[\w.-]` repository name, and
an optional trailing slash. -/
def HttpsShape (cs : List Char) : Prop :=
  ∃ o r t, cs = httpsHead ++ o ++ '/' :: (r ++ t) ∧ o ≠ [] ∧
    o.all wordDash = true ∧ r ≠ [] ∧ r.all wordDotDash = true ∧
    (t = [] ∨ t = ['/'])

/-- The SSH clone-URL shape: literal head, nonempty `[\w-]` owner, slash,
nonempty `[\w.-]` repository name, literal `.git`. -/
def SshShape (cs : List Char) : Prop :=
  ∃ o r, cs = sshHead ++ o ++ '/' :: (r ++ gitSuffix) ∧ o ≠ [] ∧
    o.all wordDash = true ∧ r ≠ [] ∧ r.all wordDotDash = true

inductive SubmitResult where
  | rejected (code : Nat)
  | accepted (job_id : String)
deriving DecidableEq

/-- The submission endpoint `POST /api/analyze` (src/backend/app.py): an
invalid locator is rejected with a 400 before a job id is generated; the
second component lists the jobs created by the call. -/
def analyze_endpoint (url : String) (fresh : String) : SubmitResult × List String :=
  if validate_github_url url then (SubmitResult.accepted fresh, [fresh])
  else (SubmitResult.rejected 400, [])

/-! ### Scanning lemmas for the validation proof -/

theorem dropHead_some (p : List Char) :
    ∀ (cs r : List Char), dropHead p cs = some r ↔ cs = p ++ r := by
  induction p with
  | nil =>
    intro cs r
    simp only [dropHead, Option.some.injEq, List.nil_append]
  | cons a p ih =>
    intro cs r
    cases cs with
    | nil => simp [dropHead]
    | cons c cs2 =>
      simp only [dropHead]
      by_cases hc : c = a
      · subst hc
        simp only [if_pos rfl, List.cons_append, List.cons.injEq, true_and]
        exact ih cs2 r
      · simp [if_neg hc, hc]

theorem span_exact (p : Char → Bool) (o rest : List Char)
    (ho : ∀ c ∈ o, p c = true) (h1 : ∀ c, rest.head? = some c → p c = false) :
    (o ++ rest).takeWhile p = o ∧ (o ++ rest).dropWhile p = rest := by
  induction o with
  | nil =>
    simp only [List.nil_append]
    cases rest with
    | nil => simp
    | cons c t =>
      have hc := h1 c rfl
      constructor
      · simp [List.takeWhile_cons, hc]
      · simp [List.dropWhile_cons, hc]
  | cons a o ih =>
    have ha : p a = true := ho a (by simp)
    have hih := ih (fun c hc => ho c (by simp [hc]))
    constructor
    · simp [List.takeWhile_cons, ha, hih.1]
    · simp [List.dropWhile_cons, ha, hih.2]

theorem dropWhile_head_false (p : Char → Bool) :
    ∀ (l : List Char) c t, l.dropWhile p = c :: t → p c = false := by
  intro l
  induction l with
  | nil => intro c t h; cases h
  | cons a l ih =>
    intro c t h
    by_cases ha : p a = true
    · rw [List.dropWhile_cons_of_pos ha] at h
      exact ih c t h
    · have ha2 : p a = false := by simpa using ha
      rw [List.dropWhile_cons_of_neg (by simp [ha2])] at h
      cases h
      exact ha2

theorem isEmpty_false_iff (l : List Char) : l.isEmpty = false ↔ l ≠ [] := by
  cases l <;> simp

theorem matchTailHttps_iff (rest : List Char) :
    matchTailHttps rest = true ↔
    ∃ o r t, rest = o ++ '/' :: (r ++ t) ∧ o ≠ [] ∧ o.all wordDash = true ∧
      r ≠ [] ∧ r.all wordDotDash = true ∧ (t = [] ∨ t = ['/']) := by
  constructor
  · intro h
    unfold matchTailHttps at h
    rcases hdw : rest.dropWhile wordDash with _ | ⟨c, r2⟩
    · rw [hdw] at h; cases h
    · rw [hdw] at h
      simp only [Bool.and_eq_true, Bool.or_eq_true, decide_eq_true_eq,
        Bool.not_eq_true', isEmpty_false_iff] at h
      obtain ⟨⟨⟨hc, hne⟩, hrne⟩, ht⟩ := h
      subst hc
      refine ⟨rest.takeWhile wordDash, r2.takeWhile wordDotDash,
        r2.dropWhile wordDotDash, ?_, hne, List.all_takeWhile, hrne,
        List.all_takeWhile, ht⟩
      rw [List.takeWhile_append_dropWhile, ← hdw, List.takeWhile_append_dropWhile]
  · rintro ⟨o, r, t, hrest, ho1, ho2, hr1, hr2, ht⟩
    have hspan := span_exact wordDash o ('/' :: (r ++ t))
      (fun c hc => List.all_eq_true.mp ho2 c hc)
      (fun c hc => by cases hc; decide)
    have hspan2 := span_exact wordDotDash r t
      (fun c hc => List.all_eq_true.mp hr2 c hc)
      (fun c hc => by
        rcases ht with ht | ht
        · subst ht; cases hc
        · subst ht; cases hc; decide)
    unfold matchTailHttps
    rw [hrest, hspan.2]
    simp only [Bool.and_eq_true, Bool.or_eq_true, decide_eq_true_eq,
      Bool.not_eq_true', isEmpty_false_iff]
    refine ⟨⟨⟨trivial, by rw [hspan.1]; exact ho1⟩, ?_⟩, ?_⟩
    · rw [hspan2.1]; exact hr1
    · rw [hspan2.2]; exact ht

theorem matchTailSsh_iff (rest : List Char) :
    matchTailSsh rest = true ↔
    ∃ o r, rest = o ++ '/' :: (r ++ gitSuffix) ∧ o ≠ [] ∧
      o.all wordDash = true ∧ r ≠ [] ∧ r.all wordDotDash = true := by
  constructor
  · intro h
    unfold matchTailSsh at h
    rcases hdw : rest.dropWhile wordDash with _ | ⟨c, r2⟩
    · rw [hdw] at h; cases h
    · rw [hdw] at h
      simp only [Bool.and_eq_true, decide_eq_true_eq, Bool.not_eq_true',
        isEmpty_false_iff] at h
      obtain ⟨⟨⟨⟨hc, hne⟩, hlen⟩, hdrop⟩, hall⟩ := h
      subst hc
      refine ⟨rest.takeWhile wordDash, r2.take (r2.length - 4), ?_, hne,
        List.all_takeWhile, ?_, hall⟩
      · rw [← hdrop, List.take_append_drop, ← hdw,
          List.takeWhile_append_dropWhile]
      · have hlt : 0 < r2.length - 4 := by omega
        have hlen2 : (r2.take (r2.length - 4)).length = r2.length - 4 := by
          rw [List.length_take]
          omega
        intro hnil
        rw [hnil] at hlen2
        simp at hlen2
        omega
  · rintro ⟨o, r, hrest, ho1, ho2, hr1, hr2⟩
    have hspan := span_exact wordDash o ('/' :: (r ++ gitSuffix))
      (fun c hc => List.all_eq_true.mp ho2 c hc)
      (fun c hc => by cases hc; decide)
    have hlen4 : gitSuffix.length = 4 := by decide
    unfold matchTailSsh
    rw [hrest, hspan.2]
    simp only [Bool.and_eq_true, decide_eq_true_eq, Bool.not_eq_true',
      isEmpty_false_iff]
    have hrlen : 0 < r.length := List.length_pos.mpr hr1
    have hlen : (r ++ gitSuffix).length = r.length + 4 := by
      rw [List.length_append, hlen4]
    refine ⟨⟨⟨⟨trivial, by rw [hspan.1]; exact ho1⟩, by omega⟩, ?_⟩, ?_⟩
    · rw [hlen]
      have : r.length + 4 - 4 = r.length := by omega
      rw [this, List.drop_left]
    · rw [hlen]
      have : r.length + 4 - 4 = r.length := by omega
      rw [this, List.take_left]
      exact hr2

theorem matchHttpsCs_shape (cs : List Char) :
    matchHttpsCs cs = true ↔ HttpsShape cs := by
  unfold matchHttpsCs HttpsShape
  rcases hd : dropHead httpsHead cs with _ | rest
  · constructor
    · intro h; simp at h
    · rintro ⟨o, r, t, hcs, -, -, -, -, -⟩
      have : dropHead httpsHead cs = some (o ++ '/' :: (r ++ t)) :=
        (dropHead_some _ _ _).mpr hcs
      rw [hd] at this; cases this
  · have hcs : cs = httpsHead ++ rest := (dropHead_some _ _ _).mp hd
    change matchTailHttps rest = true ↔ _
    rw [matchTailHttps_iff]
    constructor
    · rintro ⟨o, r, t, hrest, h1, h2, h3, h4, h5⟩
      exact ⟨o, r, t, by rw [hcs, hrest, List.append_assoc], h1, h2, h3, h4, h5⟩
    · rintro ⟨o, r, t, hcs2, h1, h2, h3, h4, h5⟩
      refine ⟨o, r, t, ?_, h1, h2, h3, h4, h5⟩
      have h6 := hcs2
      rw [hcs, List.append_assoc] at h6
      exact List.append_cancel_left h6

theorem matchSshCs_shape (cs : List Char) :
    matchSshCs cs = true ↔ SshShape cs := by
  unfold matchSshCs SshShape
  rcases hd : dropHead sshHead cs with _ | rest
  · constructor
    · intro h; simp at h
    · rintro ⟨o, r, hcs, -, -, -, -⟩
      have : dropHead sshHead cs = some (o ++ '/' :: (r ++ gitSuffix)) :=
        (dropHead_some _ _ _).mpr hcs
      rw [hd] at this; cases this
  · have hcs : cs = sshHead ++ rest := (dropHead_some _ _ _).mp hd
    change matchTailSsh rest = true ↔ _
    rw [matchTailSsh_iff]
    constructor
    · rintro ⟨o, r, hrest, h1, h2, h3, h4⟩
      exact ⟨o, r, by rw [hcs, hrest, List.append_assoc], h1, h2, h3, h4⟩
    · rintro ⟨o, r, hcs2, h1, h2, h3, h4⟩
      refine ⟨o, r, ?_, h1, h2, h3, h4⟩
      have h6 := hcs2
      rw [hcs, List.append_assoc] at h6
      exact List.append_cancel_left h6

/-- C5: locator validation accepts exactly the two supported shapes — after
Python's `strip`, a string validates iff it is of the HTTPS browse-URL
shape or the SSH clone-URL shape for github.com; the spec's two
non-examples are rejected, two canonical locators of each shape are
accepted, and an invalid locator is rejected with a 400 before any job is
created. -/
theorem validate_locator_exact_shapes :
    (∀ url : String, validate_github_url url = true ↔
      (HttpsShape (pyStrip url) ∨ SshShape (pyStrip url))) ∧
    validate_github_url ("ftp://example.com/x") = false ∧
    validate_github_url ("https://github.com/only-owner") = false ∧
    validate_github_url ("https://github.com/octocat/Hello-World") = true ∧
    validate_github_url ("git@github.com:octocat/Hello-World.git") = true ∧
    (∀ url fresh : String, validate_github_url url = false →
      analyze_endpoint url fresh = (SubmitResult.rejected 400, [])) := by
  refine ⟨?_, by decide, by decide, by decide, by decide, ?_⟩
  · intro url
    unfold validate_github_url
    rw [Bool.or_eq_true, matchHttpsCs_shape, matchSshCs_shape]
  · intro url fresh h
    unfold analyze_endpoint
    rw [h]
    simp

/-- C5 witness: the submission-rejection clause at the spec's non-example. -/
theorem validate_locator_exact_shapes_witness :
    analyze_endpoint ("ftp://example.com/x") ("id-1")
      = (SubmitResult.rejected 400, []) :=
  validate_locator_exact_shapes.2.2.2.2.2 ("ftp://example.com/x") ("id-1")
    (by decide)
